import Mathlib

/-!
Shallow embedding of the appointment-booking engine in `src/server.js`.

Time is modelled as integer milliseconds since the Unix epoch (JavaScript
`Date.getTime()`): `toISOString` is injective on instants, so the string
comparisons the server performs on ISO strings coincide with equality of
the underlying millisecond values, and slot lists are lists of instants.
Strings from the outside world are modelled as `List Char`.
-/

/-- Decidable equality for handler results, so concrete runs can be checked
by `decide`. -/
instance {ε α : Type} [DecidableEq ε] [DecidableEq α] : DecidableEq (Except ε α)
  | Except.ok a, Except.ok b =>
    if h : a = b then Decidable.isTrue (by simp [h]) else Decidable.isFalse (by simp [h])
  | Except.ok _, Except.error _ => Decidable.isFalse (by simp)
  | Except.error _, Except.ok _ => Decidable.isFalse (by simp)
  | Except.error e, Except.error f =>
    if h : e = f then Decidable.isTrue (by simp [h]) else Decidable.isFalse (by simp [h])

/-- Errors surfaced by the HTTP handlers, one constructor per distinct
rejection in `server.js` (400/404 responses and the PUT handler's catch). -/
inductive AdmissionError where
  | missingDate          -- "Invalid or missing date field" / "Invalid or missing date"
  | invalidDateFormat    -- "Invalid date format: ..."
  | doctorNotFound       -- "Doctor with ID ... not found" / "Doctor not found ..."
  | invalidDate          -- calculateAvailableSlots: "Invalid date. Use 'YYYY-MM-DD'."
  | invalidWorkingHours  -- calculateAvailableSlots: "Invalid working hours or date."
  | slotUnavailable      -- "Time slot is not available"
  | slotAlreadyBooked    -- "Time slot is already booked"
  | appointmentNotFound  -- "Appointment not found"
  | invalidDuration      -- "Invalid or missing duration"
  | serverError          -- PUT catch: "An error occurred while updating the appointment"
deriving DecidableEq

/-- Doctor working hours (`doctorSchema.workingHours`); `start` and `end`
are raw strings.  The source field `end` is a Lean keyword, modelled as
`stop`. -/
structure WorkingHours where
  start : List Char
  stop : List Char
deriving DecidableEq

/-- Doctor record (`doctorSchema`); Mongo ObjectIds are modelled as `Nat`. -/
structure Doctor where
  id : Nat
  name : List Char
  workingHours : WorkingHours
  specialization : List Char
deriving DecidableEq

/-- Appointment record (`appointmentSchema`).  `duration` is minutes; `none`
models an absent/undefined duration (the schema does not require it), whose
arithmetic in JavaScript produces `NaN`, making every `<`/`>` comparison
false. -/
structure Appointment where
  id : Nat
  doctorId : Nat
  date : Int
  duration : Option Int
  appointmentType : List Char
  patientName : List Char
  notes : List Char
deriving DecidableEq

/-- Is `c` an ASCII digit (the regex class `\d`). -/
def isDigit (c : Char) : Bool :=
  decide ('0' ≤ c ∧ c ≤ '9')

/-- Numeric value of a digit character. -/
def digitVal (c : Char) : Nat := c.toNat - 48

/-- Character `i` of `l` is a digit. -/
def digitAt (l : List Char) (i : Nat) : Bool :=
  match l[i]? with
  | some c => isDigit c
  | none => false

/-- Character `i` of `l` is the literal `c`. -/
def litAt (l : List Char) (i : Nat) (c : Char) : Bool :=
  l[i]? == some c

/-- The 24-character shape test of the regex
`/(\d{4}-\d{2}-\d{2}T\d{2}:\d{2}:\d{2}\.\d{3}Z)/` applied at one position:
true iff `l` is exactly `YYYY-MM-DDTHH:MM:SS.mmmZ` with digits at the digit
positions. -/
def checkTimestamp (l : List Char) : Bool :=
  l.length == 24 &&
  digitAt l 0 && digitAt l 1 && digitAt l 2 && digitAt l 3 && litAt l 4 '-' &&
  digitAt l 5 && digitAt l 6 && litAt l 7 '-' && digitAt l 8 && digitAt l 9 &&
  litAt l 10 'T' && digitAt l 11 && digitAt l 12 && litAt l 13 ':' &&
  digitAt l 14 && digitAt l 15 && litAt l 16 ':' && digitAt l 17 && digitAt l 18 &&
  litAt l 19 '.' && digitAt l 20 && digitAt l 21 && digitAt l 22 && litAt l 23 'Z'

/-- Attempt to match the timestamp pattern at the head of `l` (the regex
engine trying one start position): the match, when the next 24 characters
fit the pattern. -/
def matchTimestampAt (l : List Char) : Option (List Char) :=
  if checkTimestamp (l.take 24) then some (l.take 24) else none

/-- Leftmost regex match: scan start positions left to right and return the
first position where the 24-character pattern matches
(`incomingDate.match(/(\d{4}-...Z)/)` returns the leftmost match). -/
def firstTimestampMatch : List Char → Option (List Char)
  | [] => none
  | c :: rest =>
    match matchTimestampAt (c :: rest) with
    | some m => some m
    | none => firstTimestampMatch rest

/-- The `sanitizeDate` helper of the POST handler (server.js lines 144-158):
returns the first regex match, or `none` (the JS function returns `null`)
when the pattern occurs nowhere. -/
def sanitizeDate (incomingDate : List Char) : Option (List Char) :=
  firstTimestampMatch incomingDate

/-- Gregorian leap-year test (ECMA-262 time arithmetic). -/
def isLeapYear (y : Int) : Bool :=
  (Int.emod y 4 == 0 && Int.emod y 100 != 0) || Int.emod y 400 == 0

/-- Days in month `m` of year `y` (ECMA-262 time arithmetic). -/
def daysInMonth (y m : Int) : Int :=
  if m = 2 then (if isLeapYear y then 29 else 28)
  else if m = 4 ∨ m = 6 ∨ m = 9 ∨ m = 11 then 30 else 31

/-- Days from the Unix epoch to civil date `y-m-d` (proleptic Gregorian,
the mapping ECMA-262 `Date` uses for UTC timestamps). -/
def daysFromCivil (y m d : Int) : Int :=
  let y2 := if m ≤ 2 then y - 1 else y
  let era := Int.fdiv y2 400
  let yoe := y2 - era * 400
  let mp := Int.emod (m + 9) 12
  let doy := Int.fdiv (153 * mp + 2) 5 + d - 1
  let doe := yoe * 365 + Int.fdiv yoe 4 - Int.fdiv yoe 100 + doy
  era * 146097 + doe - 719468

/-- Parse of a 24-character `YYYY-MM-DDTHH:MM:SS.mmmZ` fragment by
`new Date(...)` per the ECMA-262 date-time string format: the instant in
milliseconds, or `none` (JavaScript `Invalid Date`, `NaN`) when a field is
out of range (month 01-12, day within the month, time 00:00-23:59:59 or
exactly 24:00:00.000). -/
def parseTimestamp (l : List Char) : Option Int :=
  let y : Int := (digitVal (l.getD 0 '0') * 1000 + digitVal (l.getD 1 '0') * 100 +
    digitVal (l.getD 2 '0') * 10 + digitVal (l.getD 3 '0') : Nat)
  let mo : Int := (digitVal (l.getD 5 '0') * 10 + digitVal (l.getD 6 '0') : Nat)
  let d : Int := (digitVal (l.getD 8 '0') * 10 + digitVal (l.getD 9 '0') : Nat)
  let hh : Int := (digitVal (l.getD 11 '0') * 10 + digitVal (l.getD 12 '0') : Nat)
  let mi : Int := (digitVal (l.getD 14 '0') * 10 + digitVal (l.getD 15 '0') : Nat)
  let ss : Int := (digitVal (l.getD 17 '0') * 10 + digitVal (l.getD 18 '0') : Nat)
  let ms : Int := (digitVal (l.getD 20 '0') * 100 + digitVal (l.getD 21 '0') * 10 +
    digitVal (l.getD 22 '0') : Nat)
  if 1 ≤ mo ∧ mo ≤ 12 ∧ 1 ≤ d ∧ d ≤ daysInMonth y mo ∧
      ((hh ≤ 23 ∧ mi ≤ 59 ∧ ss ≤ 59) ∨ (hh = 24 ∧ mi = 0 ∧ ss = 0 ∧ ms = 0)) then
    some (daysFromCivil y mo d * 86400000 + hh * 3600000 + mi * 60000 + ss * 1000 + ms)
  else
    none

/-- Date-normalization block of the POST handler (server.js lines 140-177):
sanitize the raw string, then parse it; a missing match or an unparseable
extracted value both reach the outer catch and yield the 400
"Invalid date format" response.  The success value is
`new Date(sanitized).toISOString()` represented by its instant. -/
def processDate (date : List Char) : Except AdmissionError Int :=
  match sanitizeDate date with
  | none => Except.error AdmissionError.invalidDateFormat
  | some s =>
    match parseTimestamp s with
    | none => Except.error AdmissionError.invalidDateFormat
    | some t => Except.ok t

/-- Millisecond instant of the UTC midnight opening instant `t`'s calendar
day: the model of `processedDate.split("T")[0]` (a `YYYY-MM-DD` string)
subsequently re-anchored by `new Date(dateT...Z)` inside
`calculateAvailableSlots`. -/
def dayStart (t : Int) : Int :=
  Int.fdiv t 86400000 * 86400000

/-- Parse of the working-hours strings: `new Date(dateThh:mm:00Z)` is a
valid instant iff the interpolated string is exactly `HH:MM` within the
ECMA-262 ranges (with `24:00` allowed); the value is minutes after
midnight.  `none` models the `NaN` check on line 58. -/
def parseHHMM : List Char → Option Int
  | [h1, h2, c, m1, m2] =>
    if isDigit h1 && isDigit h2 && c == ':' && isDigit m1 && isDigit m2 then
      let hh : Nat := digitVal h1 * 10 + digitVal h2
      let mm : Nat := digitVal m1 * 10 + digitVal m2
      if (hh ≤ 23 && mm ≤ 59) || (hh == 24 && mm == 0) then some ((hh * 60 + mm : Nat) : Int)
      else none
    else none
  | _ => none

/-- The 30-minute slot step (`30 * 60000` milliseconds, server.js line 71). -/
def slotMs : Int := 30 * 60000

/-- One appointment's contribution to the `isSlotTaken` test (server.js
lines 73-77): `currentTime < apptEnd && nextSlot > apptStart` where
`apptEnd = apptStart + duration * 60000`.  An absent duration gives
`apptEnd = NaN` in JavaScript, so both comparisons are false. -/
def overlapsSlot (currentTime nextSlot : Int) (appt : Appointment) : Bool :=
  match appt.duration with
  | some dur => decide (currentTime < appt.date + dur * 60000 ∧ nextSlot > appt.date)
  | none => false

/-- `isSlotTaken` (server.js line 73): some appointment overlaps the
candidate slot `[currentTime, nextSlot)`. -/
def isSlotTaken (appointments : List Appointment) (currentTime nextSlot : Int) : Bool :=
  appointments.any (overlapsSlot currentTime nextSlot)

/-- The `while (currentTime < workingEnd)` loop of
`calculateAvailableSlots` (server.js lines 70-84), structurally recursive
on an iteration budget so the definition computes inside the kernel: each
iteration advances `currentTime` by 30 minutes, so
`(workingEnd - currentTime).toNat` milliseconds bound the number of
iterations, and with a sufficient budget the budget is never what stops
the loop (`slotLoopAux_congr` below). -/
def slotLoopAux (appointments : List Appointment) (workingEnd : Int) :
    Nat → Int → List Int
  | 0, _ => []
  | fuel + 1, currentTime =>
    if currentTime < workingEnd then
      let nextSlot := currentTime + slotMs
      let rest := slotLoopAux appointments workingEnd fuel nextSlot
      if isSlotTaken appointments currentTime nextSlot then rest else currentTime :: rest
    else []

/-- The slot-collection loop started with its sufficient budget. -/
def slotLoop (appointments : List Appointment) (workingEnd currentTime : Int) : List Int :=
  slotLoopAux appointments workingEnd (workingEnd - currentTime).toNat currentTime

/-- The bare slot grid: the same loop with the `isSlotTaken` filter removed,
used to state how the generated grid relates to the returned free slots. -/
def gridLoopAux (workingEnd : Int) : Nat → Int → List Int
  | 0, _ => []
  | fuel + 1, currentTime =>
    if currentTime < workingEnd then
      currentTime :: gridLoopAux workingEnd fuel (currentTime + slotMs)
    else []

/-- The bare grid loop started with its sufficient budget. -/
def gridLoop (workingEnd currentTime : Int) : List Int :=
  gridLoopAux workingEnd (workingEnd - currentTime).toNat currentTime

/-- The appointment fetch of `calculateAvailableSlots`: keep this doctor's
appointments with `workingStart <= date < workingEnd` (the Mongo
`$gte`/`$lt` filter, server.js lines 62-65). -/
def findAppointmentsInWindow (doctorId : Nat) (workingStart workingEnd : Int)
    (db : List Appointment) : List Appointment :=
  db.filter fun a =>
    a.doctorId == doctorId && decide (workingStart ≤ a.date ∧ a.date < workingEnd)

/-- `calculateAvailableSlots(doctor, date)` (server.js lines 50-87).
`date` is the target day: `none` models a string failing the
`isNaN(new Date(date))` check on line 51, `some day` the midnight instant
of a valid `YYYY-MM-DD`.  The working-hours strings are interpolated into
`dateTHH:MM:00Z`; a malformed string makes that instant `NaN` (line 58). -/
def calculateAvailableSlots (doctor : Doctor) (date : Option Int)
    (db : List Appointment) : Except AdmissionError (List Int) :=
  match date with
  | none => Except.error AdmissionError.invalidDate
  | some day =>
    match parseHHMM doctor.workingHours.start, parseHHMM doctor.workingHours.stop with
    | some s, some e =>
      let workingStart := day + s * 60000
      let workingEnd := day + e * 60000
      let appointments := findAppointmentsInWindow doctor.id workingStart workingEnd db
      Except.ok (slotLoop appointments workingEnd workingStart)
    | _, _ => Except.error AdmissionError.invalidWorkingHours

/-- Body of a POST /appointments request (server.js line 131).  `date` is
the raw request string: `none` models an absent or non-string field, and
the empty list is the falsy empty string, both rejected on line 136. -/
structure PostRequest where
  doctorId : Nat
  date : Option (List Char)
  duration : Option Int
  appointmentType : List Char
  patientName : List Char
  notes : List Char

/-- `Doctor.findById` over the doctors collection. -/
def findDoctor (doctors : List Doctor) (id : Nat) : Option Doctor :=
  doctors.find? fun d => d.id == id

/-- The record `new Appointment({...})` built on lines 201-208; the Mongo
ObjectId generated at construction is modelled by the caller-supplied
fresh `newId`. -/
def newAppointment (newId : Nat) (req : PostRequest) (t : Int) : Appointment :=
  { id := newId, doctorId := req.doctorId, date := t, duration := req.duration,
    appointmentType := req.appointmentType, patientName := req.patientName,
    notes := req.notes }

/-- Read-and-validate phase of the POST /appointments handler (server.js
lines 130-198): everything before `appointment.save()`.  Returns the
appointment to be saved, or the rejection.  The slot comparison
`normalizedSlots.includes(processedDate)` is instant membership, and the
`Appointment.findOne({ doctorId, date })` conflict probe is an exact
doctor-and-instant lookup against the database snapshot. -/
def postCheck (doctors : List Doctor) (db : List Appointment) (newId : Nat)
    (req : PostRequest) : Except AdmissionError Appointment :=
  match req.date with
  | none => Except.error AdmissionError.missingDate
  | some [] => Except.error AdmissionError.missingDate
  | some dateStr =>
    match processDate dateStr with
    | Except.error e => Except.error e
    | Except.ok t =>
      match findDoctor doctors req.doctorId with
      | none => Except.error AdmissionError.doctorNotFound
      | some doctor =>
        match calculateAvailableSlots doctor (some (dayStart t)) db with
        | Except.error e => Except.error e
        | Except.ok slots =>
          if t ∈ slots then
            match db.find? (fun a => a.doctorId == req.doctorId && a.date == t) with
            | some _ => Except.error AdmissionError.slotAlreadyBooked
            | none => Except.ok (newAppointment newId req t)
          else Except.error AdmissionError.slotUnavailable

/-- Write phase of the POST handler: `appointment.save()` inserts the new
record into the collection. -/
def postCommit (db : List Appointment) (appt : Appointment) : List Appointment :=
  db ++ [appt]

/-- The whole POST /appointments handler run without interleaving: check
against the current database, then commit.  Returns the new database
contents and the stored record (the 201 response body). -/
def postAppointment (doctors : List Doctor) (db : List Appointment) (newId : Nat)
    (req : PostRequest) : Except AdmissionError (List Appointment × Appointment) :=
  match postCheck doctors db newId req with
  | Except.error e => Except.error e
  | Except.ok appt => Except.ok (postCommit db appt, appt)

/-- Body of a PUT /appointments/:id request (server.js lines 218-219).
`date` is the instant parsed by `new Date(date)` from the raw string
(`none` models a missing/falsy/unparseable date, line 222); the update
path's `date.split("T")[0]` day prefix is recovered as `dayStart` of the
instant (exact for canonical ISO-8601 UTC inputs). -/
structure PutRequest where
  id : Nat
  date : Option Int
  duration : Option Int

/-- PUT /appointments/:id handler (server.js lines 216-256).  Note the
`!duration` truthiness check rejects a zero duration; the availability is
recomputed over the full database, including the appointment being
updated; a `calculateAvailableSlots` throw is caught by the surrounding
try/catch as a 500. -/
def putAppointment (doctors : List Doctor) (db : List Appointment) (req : PutRequest) :
    Except AdmissionError (List Appointment × Appointment) :=
  match req.date with
  | none => Except.error AdmissionError.missingDate
  | some t =>
    match req.duration with
    | none => Except.error AdmissionError.invalidDuration
    | some dur =>
      if dur == 0 then Except.error AdmissionError.invalidDuration
      else
        match db.find? (fun a => a.id == req.id) with
        | none => Except.error AdmissionError.appointmentNotFound
        | some appt =>
          match findDoctor doctors appt.doctorId with
          | none => Except.error AdmissionError.doctorNotFound
          | some doctor =>
            match calculateAvailableSlots doctor (some (dayStart t)) db with
            | Except.error _ => Except.error AdmissionError.serverError
            | Except.ok slots =>
              if t ∈ slots then
                let updated := { appt with date := t, duration := some dur }
                Except.ok
                  (db.map (fun a => if a.id == req.id then updated else a), updated)
              else Except.error AdmissionError.slotUnavailable

/-- DELETE /appointments/:id handler (server.js lines 259-263):
`findByIdAndDelete` removes the record when present and the handler
answers 204 unconditionally.  The result is the new database contents and
the HTTP status. -/
def deleteAppointment (db : List Appointment) (id : Nat) : List Appointment × Nat :=
  (db.filter (fun a => a.id != id), 204)

/-! Concrete records used to run the handlers on explicit inputs.  Day 0 is
1970-01-01, so 09:00 UTC is instant 32400000, 09:30 is 34200000, 10:00 is
36000000 and 10:30 is 37800000. -/

/-- Doctor working 09:00-10:00. -/
def doctor0900to1000 : Doctor :=
  { id := 1, name := [], specialization := [],
    workingHours := { start := ("09:00".toList), stop := ("10:00".toList) } }

/-- Doctor working 09:00-10:30 (a three-slot grid). -/
def doctor0900to1030 : Doctor :=
  { id := 3, name := [], specialization := [],
    workingHours := { start := ("09:00".toList), stop := ("10:30".toList) } }

/-- Doctor whose working hours are well-formed but reversed (10:00-09:00). -/
def doctorReversed : Doctor :=
  { id := 2, name := [], specialization := [],
    workingHours := { start := ("10:00".toList), stop := ("09:00".toList) } }

/-- Booking request for doctor 1 at 1970-01-01T09:00:00.000Z, 30 minutes. -/
def req0900 : PostRequest :=
  { doctorId := 1, date := some ("1970-01-01T09:00:00.000Z".toList),
    duration := some 30, appointmentType := [], patientName := [], notes := [] }

/-- Appointment of doctor 1 at 1970-01-01T08:45Z, 30 minutes: it starts
before the working window but its interval reaches into it. -/
def apt0845dur30 : Appointment :=
  { id := 9, doctorId := 1, date := 31500000, duration := some 30,
    appointmentType := [], patientName := [], notes := [] }

/-- Appointment of doctor 1 occupying the 09:00 slot, 30 minutes. -/
def apt0900booked : Appointment :=
  { id := 5, doctorId := 1, date := 32400000, duration := some 30,
    appointmentType := [], patientName := [], notes := [] }

/-- Appointment of doctor 3 occupying the middle 09:30 slot, 30 minutes. -/
def apt0930dur30 : Appointment :=
  { id := 4, doctorId := 3, date := 34200000, duration := some 30,
    appointmentType := [], patientName := [], notes := [] }

/-- Records constructed by two concurrent identical requests. -/
def raceFirst : Appointment := newAppointment 101 req0900 32400000

/-- Record of the second concurrent request. -/
def raceSecond : Appointment := newAppointment 102 req0900 32400000

/-- Doctor whose start time-of-day string is malformed (one-digit hour). -/
def doctorMalformed : Doctor :=
  { id := 8, name := [], specialization := [],
    workingHours := { start := ("9:00".toList), stop := ("10:00".toList) } }

/-- Appointment of doctor 3 at 09:00 lasting 45 minutes: a duration that is
not a multiple of the slot width. -/
def apt0900dur45 : Appointment :=
  { id := 11, doctorId := 3, date := 32400000, duration := some 45,
    appointmentType := [], patientName := [], notes := [] }

/-- Request for doctor 1 at 1970-01-01T09:15:00.000Z: a valid instant lying
strictly between the 09:00 and 09:30 grid boundaries. -/
def req0915 : PostRequest :=
  { doctorId := 1, date := some ("1970-01-01T09:15:00.000Z".toList),
    duration := some 30, appointmentType := [], patientName := [], notes := [] }

/-- Request identical to the 09:00 booking but with no duration field. -/
def reqNoDuration : PostRequest :=
  { doctorId := 1, date := some ("1970-01-01T09:00:00.000Z".toList),
    duration := none, appointmentType := [], patientName := [], notes := [] }

theorem slotMs_pos : 0 < slotMs := by decide

theorem gridLoopAux_mem (we : Int) :
    ∀ (fuel : Nat) (t : Int), (we - t).toNat ≤ fuel →
      ∀ x : Int, x ∈ gridLoopAux we fuel t ↔ ∃ k : Nat, x = t + k * slotMs ∧ x < we := by
  intro fuel
  induction fuel with
  | zero =>
    intro t ht x
    simp only [gridLoopAux, List.not_mem_nil, false_iff]
    rintro ⟨k, rfl, hlt⟩
    simp only [slotMs] at *
    omega
  | succ n ih =>
    intro t ht x
    by_cases h : t < we
    · simp only [gridLoopAux, if_pos h, List.mem_cons]
      rw [ih (t + slotMs) (by simp only [slotMs] at *; omega) x]
      constructor
      · rintro (rfl | ⟨k, rfl, hk⟩)
        · exact ⟨0, by simp, h⟩
        · refine ⟨k + 1, by push_cast; ring, hk⟩
      · rintro ⟨k, rfl, hk⟩
        cases k with
        | zero => left; simp
        | succ m => right; refine ⟨m, by push_cast; ring, hk⟩
    · simp only [gridLoopAux, if_neg h, List.not_mem_nil, false_iff]
      rintro ⟨k, rfl, hlt⟩
      simp only [slotMs] at *
      omega

theorem gridLoop_mem (we t x : Int) :
    x ∈ gridLoop we t ↔ ∃ k : Nat, x = t + k * slotMs ∧ x < we :=
  gridLoopAux_mem we _ t le_rfl x

theorem gridLoopAux_mem_forward (we : Int) :
    ∀ (fuel : Nat) (t x : Int), x ∈ gridLoopAux we fuel t →
      ∃ k : Nat, x = t + k * slotMs ∧ x < we := by
  intro fuel
  induction fuel with
  | zero => intro t x hx; simp [gridLoopAux] at hx
  | succ n ih =>
    intro t x hx
    by_cases h : t < we
    · simp only [gridLoopAux, if_pos h, List.mem_cons] at hx
      rcases hx with rfl | hx
      · exact ⟨0, by simp, h⟩
      · obtain ⟨k, rfl, hk⟩ := ih (t + slotMs) x hx
        refine ⟨k + 1, by push_cast; ring, hk⟩
    · simp [gridLoopAux, if_neg h] at hx

theorem gridLoopAux_sorted (we : Int) :
    ∀ (fuel : Nat) (t : Int), (gridLoopAux we fuel t).Pairwise (· < ·) := by
  intro fuel
  induction fuel with
  | zero => intro t; simp [gridLoopAux]
  | succ n ih =>
    intro t
    by_cases h : t < we
    · simp only [gridLoopAux, if_pos h]
      refine List.Pairwise.cons ?_ (ih (t + slotMs))
      intro x hx
      obtain ⟨k, rfl, hk⟩ := gridLoopAux_mem_forward we n (t + slotMs) x hx
      have : (0:Int) ≤ (k : Int) * slotMs := by
        simp only [slotMs]; positivity
      simp only [slotMs] at *
      omega
    · simp [gridLoopAux, if_neg h]

theorem slotLoopAux_eq_filter (appts : List Appointment) (we : Int) :
    ∀ (fuel : Nat) (t : Int),
      slotLoopAux appts we fuel t =
        (gridLoopAux we fuel t).filter (fun x => !isSlotTaken appts x (x + slotMs)) := by
  intro fuel
  induction fuel with
  | zero => intro t; simp [slotLoopAux, gridLoopAux]
  | succ n ih =>
    intro t
    by_cases h : t < we
    · simp only [slotLoopAux, gridLoopAux, if_pos h, List.filter_cons]
      rw [ih (t + slotMs)]
      by_cases htaken : isSlotTaken appts t (t + slotMs)
      · simp [htaken]
      · simp [htaken]
    · simp [slotLoopAux, gridLoopAux, if_neg h]

theorem slotLoop_eq_filter (appts : List Appointment) (we t : Int) :
    slotLoop appts we t =
      (gridLoop we t).filter (fun x => !isSlotTaken appts x (x + slotMs)) :=
  slotLoopAux_eq_filter appts we _ t

theorem gridLoopAux_length (we : Int) :
    ∀ (fuel : Nat) (t : Int), (we - t).toNat ≤ fuel →
      (gridLoopAux we fuel t).length = ((we - t).toNat + 1799999) / 1800000 := by
  intro fuel
  induction fuel with
  | zero =>
    intro t ht
    simp only [gridLoopAux, List.length_nil]
    omega
  | succ n ih =>
    intro t ht
    by_cases h : t < we
    · simp only [gridLoopAux, if_pos h, List.length_cons]
      rw [ih (t + slotMs) (by simp only [slotMs] at *; omega)]
      simp only [slotMs] at *
      omega
    · simp only [gridLoopAux, if_neg h, List.length_nil]
      omega

theorem gridLoop_length (we t : Int) :
    (gridLoop we t).length = ((we - t).toNat + 1799999) / 1800000 :=
  gridLoopAux_length we _ t le_rfl

theorem filter_not_length_add_countP {α : Type} (p : α → Bool) (l : List α) :
    (l.filter (fun x => !p x)).length + l.countP p = l.length := by
  induction l with
  | nil => simp
  | cons a l ih =>
    by_cases h : p a
    · simp [List.filter_cons, List.countP_cons, h, ← ih]
      omega
    · simp [List.filter_cons, List.countP_cons, h, ← ih]
      omega

/-- C5: the blocking decision for a candidate slot and an appointment with a
present duration is exactly `candidate.start < existing.end ∧
candidate.end > existing.start`, and intervals that merely touch at an
endpoint do not conflict. -/
theorem c5_overlap_rule (a : Appointment) (d : Int) (hd : a.duration = some d) (t : Int) :
    (isSlotTaken [a] t (t + slotMs) = true ↔
      t < a.date + d * 60000 ∧ t + slotMs > a.date) ∧
    (t + slotMs = a.date → isSlotTaken [a] t (t + slotMs) = false) ∧
    (t = a.date + d * 60000 → isSlotTaken [a] t (t + slotMs) = false) := by
  refine ⟨?_, ?_, ?_⟩ <;> simp [isSlotTaken, overlapsSlot, hd, slotMs] <;> omega

/-- Witness for C5 at a touching endpoint: the slot ending exactly at the
appointment start is not taken. -/
theorem c5_overlap_rule_witness :
    isSlotTaken [apt0900booked] 30600000 (30600000 + slotMs) = false :=
  (c5_overlap_rule apt0900booked 30 rfl 30600000).2.1 (by decide)

/-- C9: deletion reports success (HTTP 204) for every id, existing or not,
and repeating the delete changes nothing more and reports the same
success. -/
theorem c9_delete_idempotent_success (db : List Appointment) (id : Nat) :
    (deleteAppointment db id).2 = 204 ∧
    deleteAppointment (deleteAppointment db id).1 id = deleteAppointment db id := by
  refine ⟨rfl, ?_⟩
  simp [deleteAppointment, List.filter_filter]

/-- Counterexample to C2: doctor 1 works 09:00-10:00 and has an appointment
08:45-09:15, which overlaps the generated slot [09:00, 09:30); yet the
slot is returned, because the appointment's start instant lies outside
the fetch window `[workingStart, workingEnd)`. -/
theorem c2_out_of_window_not_excluded :
    calculateAvailableSlots doctor0900to1000 (some 0) [apt0845dur30] =
      Except.ok [32400000, 34200000] ∧
    (32400000 : Int) < apt0845dur30.date + 30 * 60000 ∧
    32400000 + slotMs > apt0845dur30.date := by
  refine ⟨by decide, by decide, by decide⟩

/-- Counterexample to C3: an input holding two distinct valid timestamps
does not fail; the normalizer keeps the first one. -/
theorem c3_two_distinct_timestamps_first_wins :
    processDate ("1970-01-01T09:00:00.000Z1970-01-02T10:00:00.000Z".toList) =
      Except.ok 32400000 := by decide

/-- Counterexample to C4: with hours 09:00-10:30 and the middle 09:30 slot
blocked, the two returned slots are 60 minutes apart, not 30. -/
theorem c4_blocked_middle_slot_spacing :
    calculateAvailableSlots doctor0900to1030 (some 0) [apt0930dur30] =
      Except.ok [32400000, 36000000] ∧ (36000000 - 32400000 : Int) ≠ 30 * 60000 := by
  refine ⟨by decide, by decide⟩

/-- Counterexample to C7: updating appointment 5 onto its own current slot
is rejected with SlotUnavailable, because availability is recomputed
without excluding the appointment being modified. -/
theorem c7_self_slot_blocks_update :
    putAppointment [doctor0900to1000] [apt0900booked]
      { id := 5, date := some 32400000, duration := some 30 } =
      Except.error AdmissionError.slotUnavailable := by decide

/-- Counterexample to C8: well-formed but reversed working hours
(start 10:00 ≥ end 09:00) do not fail with InvalidWorkingHours; the
function succeeds with the empty slot list. -/
theorem c8_reversed_hours_return_empty :
    calculateAvailableSlots doctorReversed (some 0) [] = Except.ok [] := by decide

/-- C1: the admission protocol is an unguarded check-then-act.  When two
concurrent requests for doctor 1 and instant 09:00 both run their
read-and-validate phase against the same database snapshot (neither
commit yet performed), both checks pass, both commits are applied, and
the store ends with two appointments for the same doctor and instant —
the at-most-one-booking-per-slot invariant fails.  Moreover even fully
serialized, the loser receives SlotUnavailable, not SlotAlreadyBooked. -/
theorem c1_race_two_commits :
    postCheck [doctor0900to1000] [] 101 req0900 = Except.ok raceFirst ∧
    postCheck [doctor0900to1000] [] 102 req0900 = Except.ok raceSecond ∧
    (postCommit (postCommit [] raceFirst) raceSecond).countP
      (fun a => a.doctorId == 1 && a.date == 32400000) = 2 ∧
    postAppointment [doctor0900to1000] (postCommit [] raceFirst) 102 req0900 =
      Except.error AdmissionError.slotUnavailable := by
  refine ⟨by decide, by decide, by decide, by decide⟩

/-- C8 (amended): slot generation fails with InvalidWorkingHours whenever a
working-hours time-of-day is malformed; but well-formed hours with
start ≥ end are not an error — the generation loop runs zero times and
the call succeeds with the empty slot list. -/
theorem c8_working_hours_validation (doctor : Doctor) (day : Int) (db : List Appointment) :
    ((parseHHMM doctor.workingHours.start = none ∨
        parseHHMM doctor.workingHours.stop = none) →
      calculateAvailableSlots doctor (some day) db =
        Except.error AdmissionError.invalidWorkingHours) ∧
    (∀ s e : Int, parseHHMM doctor.workingHours.start = some s →
      parseHHMM doctor.workingHours.stop = some e → e ≤ s →
      calculateAvailableSlots doctor (some day) db = Except.ok []) := by
  constructor
  · rintro (h | h) <;>
      cases hs : parseHHMM doctor.workingHours.start <;>
      cases he : parseHHMM doctor.workingHours.stop <;>
      simp_all [calculateAvailableSlots]
  · intro s e hs he hle
    have hfuel : (e * 60000 - s * 60000).toNat = 0 := by omega
    have hfuel2 : (day + e * 60000 - (day + s * 60000)).toNat = 0 := by omega
    simp [calculateAvailableSlots, hs, he, slotLoop, hfuel, hfuel2, slotLoopAux]

/-- Witness for C8: a malformed hour string is rejected, while reversed
well-formed hours succeed with no slots. -/
theorem c8_working_hours_validation_witness :
    calculateAvailableSlots doctorMalformed (some 0) [] =
      Except.error AdmissionError.invalidWorkingHours ∧
    calculateAvailableSlots doctorReversed (some 0) [] = Except.ok [] :=
  ⟨(c8_working_hours_validation doctorMalformed 0 []).1 (Or.inl (by decide)),
   (c8_working_hours_validation doctorReversed 0 []).2 600 540 (by decide) (by decide)
     (by decide)⟩

/-- Unfolding of a successful availability computation: with both
working-hours strings well-formed the result is the grid filtered by the
blocking test over the fetched appointments. -/
theorem calculateAvailableSlots_eq (doctor : Doctor) (day : Int)
    (db : List Appointment) (s e : Int)
    (hs : parseHHMM doctor.workingHours.start = some s)
    (he : parseHHMM doctor.workingHours.stop = some e) :
    calculateAvailableSlots doctor (some day) db = Except.ok
      ((gridLoop (day + e * 60000) (day + s * 60000)).filter fun x =>
        !isSlotTaken (findAppointmentsInWindow doctor.id (day + s * 60000)
          (day + e * 60000) db) x (x + slotMs)) := by
  simp [calculateAvailableSlots, hs, he, slotLoop_eq_filter]

/-- C4 (amended): with both working-hours strings well-formed, the returned
value is the 30-minute grid from `day+start` up to (excluding) `day+end`
filtered by the blocking test; the survivors are strictly increasing, all
lie in `[day+start, day+end)` on the 30-minute grid, and their number is
the number of generated grid slots minus the number of blocked ones,
where the grid size is `(end-start)` in milliseconds divided by 30
minutes rounded up (consecutive survivors can thus be more than 30
minutes apart when a blocked slot lies between them). -/
theorem c4_grid_structure (doctor : Doctor) (day : Int) (db : List Appointment)
    (s e : Int) (hs : parseHHMM doctor.workingHours.start = some s)
    (he : parseHHMM doctor.workingHours.stop = some e) :
    let ws := day + s * 60000
    let we := day + e * 60000
    let appts := findAppointmentsInWindow doctor.id ws we db
    let grid := gridLoop we ws
    let avail := grid.filter fun x => !isSlotTaken appts x (x + slotMs)
    calculateAvailableSlots doctor (some day) db = Except.ok avail ∧
    avail.Pairwise (· < ·) ∧
    (∀ x ∈ avail, ws ≤ x ∧ x < we ∧ ∃ k : Nat, x = ws + k * slotMs) ∧
    avail.length + grid.countP (fun x => isSlotTaken appts x (x + slotMs)) =
      grid.length ∧
    grid.length = ((we - ws).toNat + 1799999) / 1800000 := by
  intro ws we appts grid avail
  refine ⟨?_, ?_, ?_, ?_, ?_⟩
  · exact calculateAvailableSlots_eq doctor day db s e hs he
  · exact (gridLoopAux_sorted we _ ws).filter _
  · intro x hx
    have hg : x ∈ grid := List.mem_of_mem_filter hx
    obtain ⟨k, rfl, hk⟩ := (gridLoop_mem we ws x).mp hg
    refine ⟨?_, hk, k, rfl⟩
    have : (0:Int) ≤ (k : Int) * slotMs := by simp only [slotMs]; positivity
    omega
  · exact filter_not_length_add_countP _ grid
  · exact gridLoop_length we ws

/-- Witness for C4 at doctor 1 (09:00-10:00, empty database): the concrete
availability result and the grid size. -/
theorem c4_grid_structure_witness :
    calculateAvailableSlots doctor0900to1000 (some 0) [] =
      Except.ok ((gridLoop 36000000 32400000).filter fun x =>
        !isSlotTaken (findAppointmentsInWindow 1 32400000 36000000 []) x (x + slotMs)) ∧
    (gridLoop 36000000 32400000).length = 2 := by
  have h := c4_grid_structure doctor0900to1000 0 [] 540 600 (by decide) (by decide)
  exact ⟨h.1, by decide⟩

/-- C2 (amended): every appointment of the doctor whose start instant lies
inside the fetch window `[day+start, day+end)` and whose duration is
present excludes from the result every generated slot whose half-open
30-minute interval overlaps the appointment's interval — durations other
than 30 minutes included.  (Appointments starting outside the window are
not fetched, see the counterexample.) -/
theorem c2_fetched_overlaps_excluded (doctor : Doctor) (day : Int)
    (db : List Appointment) (s e : Int)
    (hs : parseHHMM doctor.workingHours.start = some s)
    (he : parseHHMM doctor.workingHours.stop = some e)
    (a : Appointment) (d : Int) (ha : a ∈ db) (hdoc : a.doctorId = doctor.id)
    (hwin : day + s * 60000 ≤ a.date ∧ a.date < day + e * 60000)
    (hdur : a.duration = some d)
    (l : List Int) (hl : calculateAvailableSlots doctor (some day) db = Except.ok l) :
    ∀ x ∈ l, ¬(x < a.date + d * 60000 ∧ x + slotMs > a.date) := by
  intro x hx
  have hcalc := calculateAvailableSlots_eq doctor day db s e hs he
  rw [hl] at hcalc
  obtain rfl :
      l = (gridLoop (day + e * 60000) (day + s * 60000)).filter fun y =>
        !isSlotTaken (findAppointmentsInWindow doctor.id (day + s * 60000)
          (day + e * 60000) db) y (y + slotMs) := by
    exact (Except.ok.injEq _ _).mp hcalc
  have hmem := List.mem_filter.mp hx
  have htaken : isSlotTaken (findAppointmentsInWindow doctor.id (day + s * 60000)
      (day + e * 60000) db) x (x + slotMs) = false := by
    simpa using hmem.2
  have hafetched : a ∈ findAppointmentsInWindow doctor.id (day + s * 60000)
      (day + e * 60000) db := by
    refine List.mem_filter.mpr ⟨ha, ?_⟩
    simp [hdoc, hwin.1, hwin.2]
  have hov : overlapsSlot x (x + slotMs) a = false := by
    by_contra hc
    have : isSlotTaken (findAppointmentsInWindow doctor.id (day + s * 60000)
        (day + e * 60000) db) x (x + slotMs) = true :=
      List.any_eq_true.mpr ⟨a, hafetched, by simpa using hc⟩
    simp [this] at htaken
  simpa [overlapsSlot, hdur] using hov

/-- Witness for C2: doctor 3 (09:00-10:30) with a 45-minute appointment at
09:00; the surviving slot 10:00 does not overlap the appointment. -/
theorem c2_fetched_overlaps_excluded_witness :
    calculateAvailableSlots doctor0900to1030 (some 0) [apt0900dur45] =
      Except.ok [36000000] ∧
    ¬((36000000 : Int) < apt0900dur45.date + 45 * 60000 ∧
      36000000 + slotMs > apt0900dur45.date) := by
  refine ⟨by decide, ?_⟩
  exact c2_fetched_overlaps_excluded doctor0900to1030 0 [apt0900dur45] 540 630
    (by decide) (by decide) apt0900dur45 45 (by simp) (by decide)
    ⟨by decide, by decide⟩ (by decide) [36000000] (by decide) 36000000 (by simp)

theorem checkTimestamp_length {l : List Char} (h : checkTimestamp l = true) :
    l.length = 24 := by
  simp only [checkTimestamp, Bool.and_eq_true, beq_iff_eq] at h
  exact h.1.1.1.1.1.1.1.1.1.1.1.1.1.1.1.1.1.1.1.1.1.1.1.1

theorem matchTimestampAt_self {ts : List Char} (h : matchTimestampAt ts = some ts) :
    checkTimestamp ts = true ∧ ts.length = 24 := by
  by_cases hc : checkTimestamp (ts.take 24) = true
  · have hlen := checkTimestamp_length hc
    have htk : ts.take 24 = ts := by
      simp only [matchTimestampAt, hc, if_true, Option.some.injEq] at h
      exact h
    rw [htk] at hc hlen
    exact ⟨hc, by omega⟩
  · simp [matchTimestampAt, hc] at h

theorem matchTimestampAt_append {ts : List Char} (h : matchTimestampAt ts = some ts)
    (rest : List Char) : matchTimestampAt (ts ++ rest) = some ts := by
  obtain ⟨hc, hlen⟩ := matchTimestampAt_self h
  have htk : (ts ++ rest).take 24 = ts := by
    rw [← hlen, List.take_left]
  simp [matchTimestampAt, htk, hc]

theorem firstTimestampMatch_of_matchAt {l m : List Char}
    (hne : l ≠ []) (h : matchTimestampAt l = some m) :
    firstTimestampMatch l = some m := by
  cases l with
  | nil => exact absurd rfl hne
  | cons c rest =>
    show (match matchTimestampAt (c :: rest) with
      | some m => some m
      | none => firstTimestampMatch rest) = some m
    rw [h]

/-- C3 (amended): the normalizer extracts the leftmost well-formed
`YYYY-MM-DDTHH:MM:SS.mmmZ` substring.  An input with no well-formed
fragment, or whose extracted fragment does not parse to a valid instant,
fails with InvalidDateFormat; an input beginning with a well-formed
fragment normalizes exactly as that fragment alone does, regardless of
what follows — so a duplicated fragment collapses to the single instant,
and of two distinct embedded timestamps the first wins instead of the
input being rejected. -/
theorem c3_leftmost_extraction :
    (∀ l : List Char, firstTimestampMatch l = none →
      processDate l = Except.error AdmissionError.invalidDateFormat) ∧
    (∀ l m : List Char, firstTimestampMatch l = some m → parseTimestamp m = none →
      processDate l = Except.error AdmissionError.invalidDateFormat) ∧
    (∀ ts rest : List Char, matchTimestampAt ts = some ts →
      processDate (ts ++ rest) = processDate ts) := by
  refine ⟨?_, ?_, ?_⟩
  · intro l h
    simp [processDate, sanitizeDate, h]
  · intro l m h hp
    simp [processDate, sanitizeDate, h, hp]
  · intro ts rest h
    have hlen := (matchTimestampAt_self h).2
    have hne : ts ≠ [] := by
      intro hnil
      rw [hnil] at hlen
      simp at hlen
    have hne2 : ts ++ rest ≠ [] := by
      intro hnil
      exact hne (List.append_eq_nil.mp hnil).1
    have h1 : firstTimestampMatch (ts ++ rest) = some ts :=
      firstTimestampMatch_of_matchAt hne2 (matchTimestampAt_append h rest)
    have h2 : firstTimestampMatch ts = some ts :=
      firstTimestampMatch_of_matchAt hne h
    simp [processDate, sanitizeDate, h1, h2]

/-- Witness for C3: the duplicated fragment of the spec's test vector
normalizes to the single instant; an input with no fragment fails. -/
theorem c3_leftmost_extraction_witness :
    processDate ("1970-01-01T09:00:00.000Z1970-01-01T09:00:00.000Z".toList) =
      Except.ok 32400000 ∧
    processDate ("hello".toList) = Except.error AdmissionError.invalidDateFormat := by
  constructor
  · have hsplit : ("1970-01-01T09:00:00.000Z1970-01-01T09:00:00.000Z".toList) =
        ("1970-01-01T09:00:00.000Z".toList) ++ ("1970-01-01T09:00:00.000Z".toList) := by
      decide
    rw [hsplit, c3_leftmost_extraction.2.2 _ _ (by decide)]
    decide
  · exact c3_leftmost_extraction.1 _ (by decide)

/-- C6: once normalization, doctor lookup and the availability computation
succeed, the booking is rejected with SlotUnavailable exactly when the
normalized instant is not literally one of the returned slot starts —
instant equality, not interval containment. -/
theorem c6_exact_instant_required (doctors : List Doctor) (db : List Appointment)
    (newId : Nat) (req : PostRequest) (ds : List Char) (t : Int) (doctor : Doctor)
    (slots : List Int) (hds : req.date = some ds) (hne : ds ≠ [])
    (ht : processDate ds = Except.ok t)
    (hdoc : findDoctor doctors req.doctorId = some doctor)
    (hslots : calculateAvailableSlots doctor (some (dayStart t)) db = Except.ok slots) :
    postAppointment doctors db newId req = Except.error AdmissionError.slotUnavailable ↔
      t ∉ slots := by
  obtain ⟨c, cs, rfl⟩ := List.exists_cons_of_ne_nil hne
  by_cases hmem : t ∈ slots
  · cases hfind : db.find? (fun a => a.doctorId == req.doctorId && a.date == t) with
    | none =>
      simp [postAppointment, postCheck, hds, ht, hdoc, hslots, hmem, hfind]
    | some b =>
      simp [postAppointment, postCheck, hds, ht, hdoc, hslots, hmem, hfind]
  · simp [postAppointment, postCheck, hds, ht, hdoc, hslots, hmem]

/-- Witness for C6: the 09:15 request on the 09:00/09:30 grid is rejected
with SlotUnavailable. -/
theorem c6_exact_instant_required_witness :
    postAppointment [doctor0900to1000] [] 6 req0915 =
      Except.error AdmissionError.slotUnavailable :=
  (c6_exact_instant_required [doctor0900to1000] [] 6 req0915
    ("1970-01-01T09:15:00.000Z".toList) 33300000 doctor0900to1000
    [32400000, 34200000] rfl (by decide) (by decide) (by decide) (by decide)).mpr
    (by decide)

/-- C7 (amended): the update path re-runs slot validation against the new
requested instant, but the availability it uses is computed over the full
appointment collection with no exclusion of the appointment being
modified: once the lookups succeed, the update is rejected with
SlotUnavailable exactly when the new instant is not among the slots
computed from the complete database — so an appointment's own current
slot blocks rewriting onto it (see the counterexample). -/
theorem c7_no_self_exclusion (doctors : List Doctor) (db : List Appointment)
    (req : PutRequest) (t dur : Int) (appt : Appointment) (doctor : Doctor)
    (slots : List Int) (hdate : req.date = some t) (hdur : req.duration = some dur)
    (hz : dur ≠ 0) (happt : db.find? (fun a => a.id == req.id) = some appt)
    (hdoc : findDoctor doctors appt.doctorId = some doctor)
    (hslots : calculateAvailableSlots doctor (some (dayStart t)) db = Except.ok slots) :
    putAppointment doctors db req = Except.error AdmissionError.slotUnavailable ↔
      t ∉ slots := by
  by_cases hmem : t ∈ slots
  · simp [putAppointment, hdate, hdur, hz, happt, hdoc, hslots, hmem]
  · simp [putAppointment, hdate, hdur, hz, happt, hdoc, hslots, hmem]

/-- Witness for C7: moving appointment 5 to the genuinely free 09:30 slot is
not rejected as unavailable. -/
theorem c7_no_self_exclusion_witness :
    putAppointment [doctor0900to1000] [apt0900booked]
      { id := 5, date := some 34200000, duration := some 30 } ≠
      Except.error AdmissionError.slotUnavailable := fun h =>
  ((c7_no_self_exclusion [doctor0900to1000] [apt0900booked]
      { id := 5, date := some 34200000, duration := some 30 } 34200000 30
      apt0900booked doctor0900to1000 [34200000] rfl rfl (by decide) (by decide)
      (by decide) (by decide)).mp h) (by decide)

/-- C10: the booking admission path never validates the requested duration.
First conjunct: whenever the date normalizes, the doctor resolves, the
instant is on the free-slot grid and no appointment of that doctor sits
at exactly that instant, the request is admitted and stored with its
duration field taken verbatim — absent, zero or negative included — in
violation of the data model's `duration > 0` invariant.  Second conjunct:
a stored appointment with absent or non-positive duration blocks no
grid-aligned slot, in particular not the slot it was booked into. -/
theorem c10_duration_unvalidated :
    (∀ (doctors : List Doctor) (db : List Appointment) (newId : Nat)
        (req : PostRequest) (ds : List Char) (t : Int) (doctor : Doctor)
        (slots : List Int), req.date = some ds → ds ≠ [] →
        processDate ds = Except.ok t → findDoctor doctors req.doctorId = some doctor →
        calculateAvailableSlots doctor (some (dayStart t)) db = Except.ok slots →
        t ∈ slots →
        db.find? (fun a => a.doctorId == req.doctorId && a.date == t) = none →
        postAppointment doctors db newId req =
          Except.ok (db ++ [newAppointment newId req t], newAppointment newId req t) ∧
        (newAppointment newId req t).duration = req.duration) ∧
    (∀ (a : Appointment) (u : Int),
        (a.duration = none ∨ ∃ d : Int, a.duration = some d ∧ d ≤ 0) →
        (∃ k : Int, a.date = u + k * slotMs) →
        isSlotTaken [a] u (u + slotMs) = false) := by
  constructor
  · intro doctors db newId req ds t doctor slots hds hne ht hdoc hslots hmem hfind
    obtain ⟨c, cs, rfl⟩ := List.exists_cons_of_ne_nil hne
    refine ⟨?_, rfl⟩
    simp [postAppointment, postCheck, hds, ht, hdoc, hslots, hmem, hfind, postCommit]
  · rintro a u (hnone | ⟨d, hd, hdle⟩) ⟨k, hk⟩
    · simp [isSlotTaken, overlapsSlot, hnone]
    · simp only [isSlotTaken, overlapsSlot, hd, List.any_cons, List.any_nil,
        Bool.or_false, decide_eq_false_iff_not]
      rw [hk]
      simp only [slotMs] at *
      omega

/-- Witness for C10: the duration-less 09:00 booking is admitted and stored,
and the stored record fails to block its own 09:00 slot. -/
theorem c10_duration_unvalidated_witness :
    postAppointment [doctor0900to1000] [] 7 reqNoDuration =
      Except.ok ([newAppointment 7 reqNoDuration 32400000],
        newAppointment 7 reqNoDuration 32400000) ∧
    isSlotTaken [newAppointment 7 reqNoDuration 32400000] 32400000
      (32400000 + slotMs) = false := by
  constructor
  · exact (c10_duration_unvalidated.1 [doctor0900to1000] [] 7 reqNoDuration
      ("1970-01-01T09:00:00.000Z".toList) 32400000 doctor0900to1000
      [32400000, 34200000] rfl (by decide) (by decide) (by decide) (by decide)
      (by decide) (by decide)).1
  · exact c10_duration_unvalidated.2 (newAppointment 7 reqNoDuration 32400000)
      32400000 (Or.inl rfl) ⟨0, by decide⟩
